import Mathlib

/-!
# Shallow embedding of the inventory analytics dashboard

Definitions are translated from the Python sources `dashboard.py`,
`realtime_dashboard.py` and `realtime_data_gen.py` of the inventory
management dashboard.  Pandas dataframes become lists of row structures,
float arithmetic that can produce NaN or infinity is made explicit through
the `FloatVal` type, fallible operations return `Option`/`Except`, and the
fixed behaviours of pandas (`groupby` sorts group keys ascending;
`sort_values` with `ascending=False` reverses the data and the index,
takes an ascending argsort, and reverses the result, so that a stable
argsort leaves equal keys in their original order) are modelled
directly.
-/

/-- Lexicographic comparison of character lists by code point.  Used to
model the ascending string-key order produced by pandas `groupby`
(Lean's built-in `String` order does not reduce in the kernel, so the
comparison is spelled out on the underlying character data). -/
def charListLe : List Char → List Char → Bool
  | [], _ => true
  | _ :: _, [] => false
  | a :: as, b :: bs =>
    if a.val.toNat < b.val.toNat then true
    else if b.val.toNat < a.val.toNat then false
    else charListLe as bs

/-- String comparison on the underlying character data. -/
def strLe (a b : String) : Bool := charListLe a.data b.data

/-- `strLe` as a decidable relation, for use with `List.insertionSort`. -/
def strLeP (a b : String) : Prop := strLe a b = true

instance : DecidableRel strLeP := fun a b => by unfold strLeP; infer_instance

/-- One row of the merged dataframe `df` built at the top of
`dashboard.py`: an `Inventory` row joined with its `Products` row, plus
the derived time columns used by the claims (`year` from `date.dt.year`,
`month_year` from `date.dt.strftime` with format year dash month).
`date` is a day index in chronological order. -/
structure InventoryRow where
  id : ℤ
  product_name : String
  category : String
  date : ℕ
  year : ℤ
  month_year : String
  initial_count : ℤ
  final_count : ℤ
deriving DecidableEq

/-- Derived variance column: `df['final_count'] - df['initial_count']`. -/
def variance (r : InventoryRow) : ℤ := r.final_count - r.initial_count

/-- The year dropdown value: the string `"all"` or a concrete year. -/
inductive YearFilter
  | all
  | year (y : ℤ)
deriving DecidableEq

/-- The category dropdown value: the string `"all"` or a concrete category. -/
inductive CategoryFilter
  | all
  | cat (c : String)
deriving DecidableEq

/-- The active filter selection handed to `render_tab_content`
(`dashboard.py` lines 1125-1137).  A `None` product list from Dash is
falsy exactly like the empty list, so both are modelled as `[]`. -/
structure FilterSelection where
  products : List String
  year : YearFilter
  category : CategoryFilter

/-- Product filter (`dashboard.py` line 1130): applied only when the
selected product list is non-empty, otherwise the data passes through. -/
def filterProducts (ps : List String) (l : List InventoryRow) : List InventoryRow :=
  if ps.isEmpty then l else l.filter (fun r => ps.contains r.product_name)

/-- Year filter (`dashboard.py` line 1133): applied only when the
selection is a concrete year, `"all"` passes the data through. -/
def filterYear (y : YearFilter) (l : List InventoryRow) : List InventoryRow :=
  match y with
  | .all => l
  | .year v => l.filter (fun r => r.year == v)

/-- Category filter (`dashboard.py` line 1136): applied only when the
selection is a concrete category, `"all"` passes the data through. -/
def filterCategory (c : CategoryFilter) (l : List InventoryRow) : List InventoryRow :=
  match c with
  | .all => l
  | .cat v => l.filter (fun r => r.category == v)

/-- The filter pipeline of `render_tab_content` in its source order:
products, then year, then category. -/
def applyFilters (rows : List InventoryRow) (sel : FilterSelection) : List InventoryRow :=
  filterCategory sel.category (filterYear sel.year (filterProducts sel.products rows))

/-- The value of one float cell: a finite rational, a signed infinity, or
NaN.  Integer data stays exact in double precision at the magnitudes of
this dataset, so finite values are carried as rationals. -/
inductive FloatVal
  | fin (q : ℚ)
  | inf (pos : Bool)
  | nan
deriving DecidableEq

/-- IEEE-754 division of an integer by an integer as pandas performs it on
float columns: a nonzero denominator divides exactly, a zero denominator
yields a signed infinity for a nonzero numerator and NaN for zero over
zero. -/
def fdivInt (x y : ℤ) : FloatVal :=
  if y ≠ 0 then .fin ((x : ℚ) / (y : ℚ))
  else if 0 < x then .inf true
  else if x < 0 then .inf false
  else .nan

/-- Multiplication of a float cell by the positive constant 100, as in the
percentage computations: infinities keep their sign, NaN stays NaN. -/
def floatMul100 : FloatVal → FloatVal
  | .fin q => .fin (q * 100)
  | .inf b => .inf b
  | .nan => .nan

/-- Round-half-to-even on a rational, the rounding used by numpy/pandas
`round`. -/
def roundHalfEven (r : ℚ) : ℤ :=
  let f := ⌊r⌋
  if r - (f : ℚ) < 1 / 2 then f
  else if 1 / 2 < r - (f : ℚ) then f + 1
  else if f % 2 = 0 then f else f + 1

/-- Pandas `Series.round(1)` on a float cell: finite values are rounded to
one decimal place, infinities and NaN are unchanged. -/
def roundTo1 : FloatVal → FloatVal
  | .fin q => .fin ((roundHalfEven (q * 10) : ℚ) / 10)
  | v => v

/-- Pandas `round(2)` on a finite float, used at presentation boundaries. -/
def roundTo2 (q : ℚ) : ℚ := (roundHalfEven (q * 100) : ℚ) / 100

/-- One month-over-month percentage change of `create_growth_chart`
(`dashboard.py` line 937):
`(initial_count - previous) / previous * 100` rounded to one decimal. -/
def pct_change (prev cur : ℤ) : FloatVal :=
  roundTo1 (floatMul100 (fdivInt (cur - prev) prev))

/-- The distinct `month_year` keys of a dataset in ascending order: pandas
`groupby('month_year')` sorts its group keys, and the subsequent
`to_datetime` plus `sort_values` keeps that chronological order because
the keys are zero-padded year-month strings. -/
def sortedMonthKeys (rows : List InventoryRow) : List String :=
  ((rows.map (fun r => r.month_year)).dedup).insertionSort strLeP

/-- `df.groupby('month_year')['initial_count'].sum()` of
`create_growth_chart` (`dashboard.py` line 931): total initial count per
month, months ascending. -/
def monthlyTotals (rows : List InventoryRow) : List (String × ℤ) :=
  (sortedMonthKeys rows).map (fun k =>
    (k, ((rows.filter (fun r => r.month_year == k)).map (fun r => r.initial_count)).sum))

/-- The `pct_change` column before `dropna` (`dashboard.py` lines
936-937), one value per month after the first: the first month has a NaN
`previous` via `shift(1)` and therefore a NaN percentage, so it is listed
starting from the second month. -/
def monthlyPcts (rows : List InventoryRow) : List FloatVal :=
  let totals := (monthlyTotals rows).map Prod.snd
  (totals.zip totals.tail).map (fun p => pct_change p.1 p.2)

/-- The growth percentages that `create_growth_chart` renders
(`dashboard.py` lines 938-954): `dropna()` removes exactly the rows whose
percentage is NaN (the first month, and any zero-over-zero month);
infinite percentages are not NaN and survive. -/
def create_growth_chart_rendered (rows : List InventoryRow) : List FloatVal :=
  (monthlyPcts rows).filter (fun v => match v with | .nan => false | _ => true)

/-- The overall inventory-change KPI (`dashboard.py` line 105):
`((current - previous) / previous * 100).round(2)` guarded by an explicit
`if previous_inventory.sum() != 0 else 0` sentinel. -/
def inventory_change (cur prev : ℤ) : ℚ :=
  if prev ≠ 0 then roundTo2 (((cur : ℚ) - (prev : ℚ)) / (prev : ℚ) * 100) else 0

/-- One result row of a store query: an ordered mapping from column name
to serialized value, as produced by `DataFrame.to_dict('records')`. -/
abbrev ResultRow := List (String × String)

/-- The outcome of executing one SQL query against the store: either the
result rows or a raised database error. -/
inductive QueryOutcome
  | ok (rows : List ResultRow)
  | err (msg : String)
deriving DecidableEq

/-- `run_sql_query` (`dashboard.py` lines 1453-1477): returns the result
rows when the query succeeds with at least one row, the empty list on
zero rows, and on any exception catches it, logs it, and returns a
one-element list holding an `error` mapping.  It never propagates the
exception. -/
def run_sql_query : QueryOutcome → List ResultRow
  | .ok rows => if 0 < rows.length then rows else []
  | .err msg => [[("error", msg)]]

/-- The fixed key order of the `data_queries` catalog
(`dashboard.py` lines 1544-1577); a Python dict preserves insertion
order, so iteration always visits the keys in this order. -/
def dataQueryKeys : List String :=
  ["max_initial_count", "min_initial_count", "max_final_count", "min_final_count",
   "avg_initial_count", "avg_final_count", "top_products_by_change",
   "category_performance", "trends_over_time", "product_counts_by_date"]

/-- The catalog loop of `process_user_message` (`dashboard.py` lines
1578-1582) over an arbitrary key list: each key's query is executed via
`run_sql_query`, and a labeled block is appended exactly when the
returned list is non-empty.  The assembled `all_data_context` string is
the concatenation of these blocks in list order, so it is modelled as the
list of labeled blocks. -/
def contextBlocks (ks : List String) (env : String → QueryOutcome) :
    List (String × List ResultRow) :=
  ks.filterMap (fun k =>
    let result := run_sql_query (env k)
    if 0 < result.length then some (k, result) else none)

/-- The context document blocks for the fixed catalog, given the store's
response `env` to each named query. -/
def all_data_context (env : String → QueryOutcome) : List (String × List ResultRow) :=
  contextBlocks dataQueryKeys env

/-- A store environment in which the first catalog query raises and every
other catalog query returns zero rows. -/
def failingEnv : String → QueryOutcome :=
  fun k => if k = "max_initial_count" then .err "no such table: Inventory" else .ok []

/-- One chat message of the `chat-history` store: sender is `"user"` or
`"ai"`. -/
structure ChatMessage where
  sender : String
  text : String
deriving DecidableEq

/-- The fixed fallback text appended when the Gemini call raises
(`dashboard.py` line 1606). -/
def fallback_text : String :=
  "I encountered an error processing your request. Please try a more specific question about your inventory data."

/-- The assistant text produced from the model invocation: the model
output on success, the fixed fallback on any raised failure
(`dashboard.py` lines 1600-1606). -/
def ai_text : Except String String → String
  | .ok t => t
  | .error _ => fallback_text

/-- The log lines printed on the model-invocation path: nothing on
success, the caught error (and its traceback, not modelled) on failure
(`dashboard.py` lines 1604-1605). -/
def gemini_log : Except String String → List String
  | .ok _ => []
  | .error e => ["Gemini API error: " ++ e]

/-- `process_user_message` (`dashboard.py` lines 1520-1629) restricted to
its conversation-state effect.  The guard at line 1521 raises
`PreventUpdate` (modelled as `none`) when `user_input` is falsy - which
for a Python string means exactly the empty string - or when neither the
send button nor the enter key fired.  Otherwise the user message is
appended, the context is assembled (`run_sql_query` never raises, see
above), the model is invoked, and the assistant message - model output or
fixed fallback - is appended.  A `None`/message-less history is replaced
by an empty message list before appending, so the history is passed here
as a plain list.  The returned pair is the new history and the log lines
of the model call. -/
def process_user_message (send_clicks enter_clicks : Bool) (user_input : String)
    (history : List ChatMessage) (model_result : Except String String) :
    Option (List ChatMessage × List String) :=
  if user_input = "" ∨ (send_clicks = false ∧ enter_clicks = false) then none
  else
    some (history ++ [⟨"user", user_input⟩, ⟨"ai", ai_text model_result⟩],
          gemini_log model_result)

/-- One submission step: run `process_user_message` with the send trigger
fired and keep the previous history if the callback signals
`PreventUpdate`. -/
def submitStep (h : List ChatMessage) (sub : String × Except String String) :
    List ChatMessage :=
  match process_user_message true true sub.1 h sub.2 with
  | some r => r.1
  | none => h

/-- The two messages a processed submission appends, in order. -/
def submissionMessages (sub : String × Except String String) : List ChatMessage :=
  [⟨"user", sub.1⟩, ⟨"ai", ai_text sub.2⟩]

/-- The transcript appended by a sequence of processed submissions. -/
def transcript (subs : List (String × Except String String)) : List ChatMessage :=
  subs.foldr (fun s acc => submissionMessages s ++ acc) []

/-- The movement type of a real-time inventory event
(`realtime_data_gen.py`). -/
inductive MovementType
  | incoming
  | outgoing
deriving DecidableEq

/-- The quantity clamp of `generate_movement` (`realtime_data_gen.py`
lines 122-125): for an outgoing movement whose quantity exceeds the
current stock, the quantity is replaced by `max(1, current_stock)`. -/
def clampedQuantity (t : MovementType) (current_stock quantity : ℤ) : ℤ :=
  match t with
  | .outgoing => if current_stock < quantity then max 1 current_stock else quantity
  | .incoming => quantity

/-- The stock update of `generate_movement` (`realtime_data_gen.py` line
128): `current_stock + quantity` for incoming, `current_stock - quantity`
for outgoing, with the clamped quantity. -/
def newStock (t : MovementType) (current_stock quantity : ℤ) : ℤ :=
  match t with
  | .incoming => current_stock + clampedQuantity t current_stock quantity
  | .outgoing => current_stock - clampedQuantity t current_stock quantity

/-- One row of the real-time movements dataframe
(`realtime_dashboard.py` `load_recent_movements`). -/
structure MovementRow where
  product_name : String
  category : String
  movement_type : MovementType
  quantity : ℤ
deriving DecidableEq

/-- The summary metrics dictionary of `get_summary_metrics`
(`realtime_dashboard.py` lines 62-85). -/
structure SummaryMetrics where
  total_movements : ℕ
  incoming_count : ℕ
  outgoing_count : ℕ
  incoming_items : ℤ
  outgoing_items : ℤ
  net_change : ℤ
deriving DecidableEq

/-- The all-zero metrics returned for an empty movement dataframe. -/
def zeroMetrics : SummaryMetrics := ⟨0, 0, 0, 0, 0, 0⟩

/-- `get_summary_metrics` (`realtime_dashboard.py` lines 62-85): explicit
all-zero result on an empty dataframe, otherwise counts and sums split by
movement type, each sum guarded by its own emptiness check as in the
source. -/
def get_summary_metrics (df : List MovementRow) : SummaryMetrics :=
  if df.isEmpty then zeroMetrics
  else
    let incoming := df.filter (fun m => m.movement_type == MovementType.incoming)
    let outgoing := df.filter (fun m => m.movement_type == MovementType.outgoing)
    let incoming_items := if incoming.isEmpty then 0 else (incoming.map (fun m => m.quantity)).sum
    let outgoing_items := if outgoing.isEmpty then 0 else (outgoing.map (fun m => m.quantity)).sum
    { total_movements := df.length
      incoming_count := incoming.length
      outgoing_count := outgoing.length
      incoming_items := incoming_items
      outgoing_items := outgoing_items
      net_change := incoming_items - outgoing_items }

/-- The distinct product names of a dataset in ascending order, the key
order pandas `groupby('product_name')` produces. -/
def sortedProductKeys (rows : List InventoryRow) : List String :=
  ((rows.map (fun r => r.product_name)).dedup).insertionSort strLeP

/-- `create_product_distribution_chart` data (`dashboard.py` lines
760-764): total variance per product. -/
def product_distribution (rows : List InventoryRow) : List (String × ℤ) :=
  (sortedProductKeys rows).map (fun k =>
    (k, ((rows.filter (fun r => r.product_name == k)).map variance).sum))

/-- One group of `create_busy_days_chart` (`dashboard.py` lines
1073-1074): a `(date, product_name)` pair with its transaction count. -/
structure BusyGroup where
  date : ℕ
  product_name : String
  transaction_count : ℕ
deriving DecidableEq

/-- Ascending lexicographic order on `(date, product_name)` group keys,
the key order of `groupby(['date', 'product_name'])`. -/
def dpKeyLe (a b : ℕ × String) : Prop :=
  a.1 < b.1 ∨ (a.1 = b.1 ∧ strLe a.2 b.2 = true)

instance : DecidableRel dpKeyLe := fun a b => by unfold dpKeyLe; infer_instance

/-- `busy_days` (`dashboard.py` lines 1073-1074):
`groupby(['date', 'product_name']).size()`, keys ascending. -/
def busy_days (rows : List InventoryRow) : List BusyGroup :=
  let keys := ((rows.map (fun r => (r.date, r.product_name))).dedup).insertionSort dpKeyLe
  keys.map (fun k =>
    ⟨k.1, k.2, rows.countP (fun r => (r.date, r.product_name) == k)⟩)

/-- Ascending order on transaction counts, the sort key of
`sort_values('transaction_count', ascending=False)`. -/
def countLe (a b : BusyGroup) : Prop := a.transaction_count ≤ b.transaction_count

instance : DecidableRel countLe := fun a b => by unfold countLe; infer_instance

instance : IsTotal BusyGroup countLe :=
  ⟨fun a b => Nat.le_total a.transaction_count b.transaction_count⟩

instance : IsTrans BusyGroup countLe :=
  ⟨fun _ _ _ h h' => Nat.le_trans h h'⟩

/-- `top_days` (`dashboard.py` line 1077):
`busy_days.sort_values('transaction_count', ascending=False).head(10)`.
Pandas computes a descending single-key sort by reversing the data and
the index, taking an ascending argsort, and reversing the result
(`pandas.core.sorting.nargsort`), so with a stable argsort the double
reversal leaves equal keys in their original relative order.  The
ascending argsort is modelled as a stable insertion sort; this is exact
for the small arrays numpy's default quicksort handles by insertion
sort, while on larger arrays that quicksort leaves the relative order of
equal keys unspecified, so only the ordering by transaction count itself
is guaranteed by the program. -/
def top_days (rows : List InventoryRow) : List BusyGroup :=
  ((((busy_days rows).reverse).insertionSort countLe).reverse).take 10

/-- The content `render_tab_content` returns (`dashboard.py` lines
1125-1391), restricted to the aggregation outputs the claims are about:
the explicit no-data alert for an empty filtered dataset, otherwise the
active tab's summary payload. -/
inductive TabContent
  | noDataAlert
  | overviewTab (distribution : List (String × ℤ))
  | timeTab (growth : List FloatVal)
  | productsTab (busiest : List BusyGroup)
  | dataTab (table : List InventoryRow)
  | invalidTab

/-- `render_tab_content` (`dashboard.py` lines 1125-1391): filter the
dataset by the current selection, return the explicit warning alert when
the filtered dataset is empty, and otherwise dispatch on the active tab;
every summary below the guard only ever sees a non-empty dataset. -/
def render_tab_content (active_tab : String) (rows : List InventoryRow)
    (sel : FilterSelection) : TabContent :=
  let filtered := applyFilters rows sel
  if filtered.isEmpty then .noDataAlert
  else if active_tab = "tab-overview" then .overviewTab (product_distribution filtered)
  else if active_tab = "tab-time" then .timeTab (create_growth_chart_rendered filtered)
  else if active_tab = "tab-products" then .productsTab (top_days filtered)
  else if active_tab = "tab-data" then .dataTab filtered
  else .invalidTab

/-- Two inventory rows across two months whose first month has total
initial count 0: the concrete dataset used to settle the growth-sentinel
claim. -/
def growthExampleRows : List InventoryRow :=
  [⟨1, "Vase", "Decor", 0, 2022, "2022-01", 0, 3⟩,
   ⟨2, "Vase", "Decor", 31, 2022, "2022-02", 5, 5⟩]


/-- The product predicate as a single boolean test: the empty selection
is the constant-true identity. -/
def productPred (ps : List String) (r : InventoryRow) : Bool :=
  ps.isEmpty || ps.contains r.product_name

/-- The year predicate as a single boolean test: `"all"` is the
constant-true identity. -/
def yearPred (y : YearFilter) (r : InventoryRow) : Bool :=
  match y with
  | .all => true
  | .year v => r.year == v

/-- The category predicate as a single boolean test: `"all"` is the
constant-true identity. -/
def categoryPred (c : CategoryFilter) (r : InventoryRow) : Bool :=
  match c with
  | .all => true
  | .cat v => r.category == v

/-- Two inventory rows forming two `(date, product)` groups with one
transaction each: the concrete tied dataset used to settle the
busiest-day tie-break claim. -/
def busyTieRows : List InventoryRow :=
  [⟨1, "Vase", "Decor", 5, 2022, "2022-01", 10, 12⟩,
   ⟨2, "Lamp", "Decor", 3, 2022, "2022-01", 7, 7⟩]

/-- Three inventory rows across two `(date, product)` groups: the
concrete dataset used to witness the busiest-day claim. -/
def busyExampleRows : List InventoryRow :=
  [⟨1, "Vase", "Decor", 5, 2022, "2022-01", 10, 12⟩,
   ⟨2, "Vase", "Decor", 5, 2022, "2022-01", 12, 11⟩,
   ⟨3, "Lamp", "Decor", 3, 2022, "2022-01", 7, 7⟩]

/-- A concrete pair of submissions: one model success followed by one
model failure. -/
def exampleSubs : List (String × Except String String) :=
  [("Which product moved most?", Except.ok "The box product moved most."),
   ("And the least?", Except.error "transport closed")]

/-- The greeting the chat history starts with (`dashboard.py` line 696). -/
def greetingMessage : ChatMessage :=
  ⟨"ai", "Hello! I'm your AI analytics assistant. Ask me anything about your inventory data."⟩

/-! ## Theorems -/

/-- Claim C4 (code_bug): for an outgoing movement at current stock 0, the
clamp `max(1, current_stock)` of `generate_movement` forces a quantity of
1 and drives the stock to -1, below zero, contradicting the comment at
`realtime_data_gen.py` line 122 that the clamp makes sure stock does not
go negative. -/
theorem C4_outgoing_clamp_negative :
    clampedQuantity MovementType.outgoing 0 5 = 1 ∧
    newStock MovementType.outgoing 0 5 = -1 ∧
    newStock MovementType.outgoing 0 5 < 0 := by decide

/-- Claim C7 (counterexample): a whitespace-only input is truthy in
Python, so the guard `if not user_input` does not fire: submitting a
single space appends a user and an assistant message and is not a no-op,
contrary to the claim that blank input causes no state change. -/
theorem C7_blank_input_counterexample :
    process_user_message true false " " [] (Except.ok "All products are in stock.") =
      some ([⟨"user", " "⟩, ⟨"ai", "All products are in stock."⟩], []) := by decide

/-- Claim C7 (amended): only the exactly-empty input string (or the
absence of any trigger event) is rejected with an explicit no-op signal
(`PreventUpdate`) and leaves the history untouched; whitespace-only input
is processed as a normal submission. -/
theorem C7_empty_input_noop :
    (∀ (send_clicks enter_clicks : Bool) (history : List ChatMessage)
        (model_result : Except String String),
        process_user_message send_clicks enter_clicks "" history model_result = none) ∧
    (∀ (user_input : String) (history : List ChatMessage)
        (model_result : Except String String),
        process_user_message false false user_input history model_result = none) := by
  constructor
  · intro s e h mr
    simp [process_user_message]
  · intro u h mr
    simp [process_user_message]

/-- Claim C10: `run_sql_query` is total over query outcomes: it returns
the result rows on success, the empty list on zero rows, and on a
database error a non-empty one-element list whose single mapping binds
the key `error` to the error text. -/
theorem C10_run_sql_query_total :
    (∀ rows : List ResultRow, run_sql_query (QueryOutcome.ok rows) = rows) ∧
    (∀ msg : String, run_sql_query (QueryOutcome.err msg) = [[("error", msg)]]) ∧
    (∀ msg : String, (run_sql_query (QueryOutcome.err msg)).length = 1) := by
  refine ⟨?_, ?_, ?_⟩
  · intro rows
    cases rows with
    | nil => rfl
    | cons a t => simp [run_sql_query]
  · intro msg
    rfl
  · intro msg
    rfl

/-- Claim C5: when the filtered dataset is empty, `render_tab_content`
returns the explicit no-data alert before any summary runs, and the
real-time `get_summary_metrics` returns the explicit all-zero metrics on
an empty dataframe. -/
theorem C5_empty_dataset (active_tab : String) (rows : List InventoryRow)
    (sel : FilterSelection) (h : applyFilters rows sel = []) :
    render_tab_content active_tab rows sel = TabContent.noDataAlert ∧
    get_summary_metrics [] = zeroMetrics := by
  constructor
  · simp [render_tab_content, h]
  · rfl

/-- Witness for C5 at the empty dataset with all filters at their
identity values. -/
theorem C5_empty_dataset_witness :
    render_tab_content "tab-overview" []
        ⟨[], YearFilter.all, CategoryFilter.all⟩ = TabContent.noDataAlert ∧
    get_summary_metrics [] = zeroMetrics :=
  C5_empty_dataset "tab-overview" [] ⟨[], YearFilter.all, CategoryFilter.all⟩ rfl

/-- Claim C6: when the model invocation raises, the submission still
completes: the user message and then exactly one assistant message with
the fixed fallback text are appended, the error is logged, and the
history grows by exactly 2. -/
theorem C6_model_failure (history : List ChatMessage) (user_input err_msg : String)
    (enter_clicks : Bool) (h : user_input ≠ "") :
    process_user_message true enter_clicks user_input history (Except.error err_msg) =
      some (history ++ [⟨"user", user_input⟩, ⟨"ai", fallback_text⟩],
            ["Gemini API error: " ++ err_msg]) ∧
    (history ++ [ChatMessage.mk "user" user_input, ChatMessage.mk "ai" fallback_text]).length =
      history.length + 2 ∧
    (["Gemini API error: " ++ err_msg].length : ℕ) = 1 := by
  refine ⟨?_, ?_, ?_⟩
  · simp [process_user_message, h, ai_text, gemini_log]
  · simp
  · rfl

/-- Witness for C6 at a concrete failing submission. -/
theorem C6_model_failure_witness :
    process_user_message true false "What sold best?" [] (Except.error "quota exceeded") =
      some (([] : List ChatMessage) ++ [⟨"user", "What sold best?"⟩, ⟨"ai", fallback_text⟩],
            ["Gemini API error: " ++ "quota exceeded"]) ∧
    (([] : List ChatMessage) ++ [ChatMessage.mk "user" "What sold best?", ChatMessage.mk "ai" fallback_text]).length =
      ([] : List ChatMessage).length + 2 ∧
    (["Gemini API error: " ++ "quota exceeded"].length : ℕ) = 1 :=
  C6_model_failure [] "What sold best?" "quota exceeded" false (by decide)

/-- Claim C1 (counterexample): on a dataset whose first month has total
initial count 0 and whose second month has total 5, `create_growth_chart`
renders positive infinity - not the sentinel 0 - for the second month:
the division by the zero previous total is not special-cased and the
infinity survives `dropna`. -/
theorem C1_growth_sentinel_counterexample :
    create_growth_chart_rendered growthExampleRows = [FloatVal.inf true] := by decide

/-- Claim C1 (amended): the rendered growth percentages never contain NaN
(`dropna` removes the first month and any zero-over-zero month), but a
bucket whose previous month's total is 0 is not mapped to the sentinel 0:
a nonzero current total yields a rendered signed infinity, and only the
separate `inventory_change` KPI special-cases a zero previous value to
the sentinel 0. -/
theorem C1_growth_sentinel_amended :
    (∀ rows : List InventoryRow, FloatVal.nan ∉ create_growth_chart_rendered rows) ∧
    (∀ cur : ℤ, inventory_change cur 0 = 0) ∧
    (∀ cur : ℤ, 0 < cur → pct_change 0 cur = FloatVal.inf true) ∧
    (∀ cur : ℤ, cur < 0 → pct_change 0 cur = FloatVal.inf false) ∧
    pct_change 0 0 = FloatVal.nan := by
  refine ⟨?_, ?_, ?_, ?_, ?_⟩
  · intro rows hmem
    have h2 := (List.mem_filter.mp hmem).2
    simp at h2
  · intro cur
    simp [inventory_change]
  · intro cur h
    have h' : ¬ (cur - 0 < 0) := by omega
    simp [pct_change, fdivInt, floatMul100, roundTo1, h, h']
  · intro cur h
    have h1 : ¬ (0 : ℤ) < cur := by omega
    simp [pct_change, fdivInt, floatMul100, roundTo1, sub_zero, h, h1]
  · simp [pct_change, fdivInt, floatMul100, roundTo1]

/-- Witness for the amended C1 at concrete inputs. -/
theorem C1_growth_sentinel_amended_witness :
    FloatVal.nan ∉ create_growth_chart_rendered growthExampleRows ∧
    inventory_change 7 0 = 0 ∧
    pct_change 0 5 = FloatVal.inf true ∧
    pct_change 0 (-5) = FloatVal.inf false :=
  ⟨C1_growth_sentinel_amended.1 growthExampleRows,
   C1_growth_sentinel_amended.2.1 7,
   C1_growth_sentinel_amended.2.2.1 5 (by decide),
   C1_growth_sentinel_amended.2.2.2.1 (-5) (by decide)⟩

/-- Claim C2 (counterexample): in a store where the first catalog query
raises and every other query returns zero rows, the assembled context
contains a labeled block for the failed query - `run_sql_query` converts
the failure into a non-empty one-row error result - so the failed query's
block is not omitted as claimed. -/
theorem C2_query_failure_counterexample :
    all_data_context failingEnv =
      [("max_initial_count", [[("error", "no such table: Inventory")]])] ∧
    "max_initial_count" ∈ (all_data_context failingEnv).map Prod.fst := by decide

/-- The labels of the assembled context blocks are exactly the catalog
keys whose `run_sql_query` result is non-empty, in the fixed key order. -/
theorem contextBlocks_labels (ks : List String) (env : String → QueryOutcome) :
    (contextBlocks ks env).map Prod.fst =
      ks.filter (fun k => decide (0 < (run_sql_query (env k)).length)) := by
  induction ks with
  | nil => rfl
  | cons k t ih =>
    by_cases h : 0 < (run_sql_query (env k)).length
    · simp only [contextBlocks, List.filterMap_cons] at *
      simp [h, ih]
    · simp only [contextBlocks, List.filterMap_cons] at *
      simp [h, ih]

/-- Claim C2 (amended): a failing catalog query does not abort the
context-building step - the remaining queries still execute and their
blocks appear in the fixed catalog order - but its block is not omitted:
`run_sql_query` converts the failure into a one-row `error` mapping, so a
labeled block carrying the error text is included; only a zero-row result
omits its block. -/
theorem C2_query_failure_amended (env : String → QueryOutcome) :
    (all_data_context env).map Prod.fst =
      dataQueryKeys.filter (fun k => decide (0 < (run_sql_query (env k)).length)) ∧
    (∀ k m, k ∈ dataQueryKeys → env k = QueryOutcome.err m →
      (k, [[("error", m)]]) ∈ all_data_context env) := by
  constructor
  · exact contextBlocks_labels dataQueryKeys env
  · intro k m hk he
    apply List.mem_filterMap.mpr
    refine ⟨k, hk, ?_⟩
    simp [run_sql_query, he]

/-- Witness for the amended C2 at the concrete failing store. -/
theorem C2_query_failure_amended_witness :
    (all_data_context failingEnv).map Prod.fst =
      dataQueryKeys.filter (fun k => decide (0 < (run_sql_query (failingEnv k)).length)) ∧
    ("max_initial_count", [[("error", "no such table: Inventory")]]) ∈
      all_data_context failingEnv :=
  ⟨(C2_query_failure_amended failingEnv).1,
   (C2_query_failure_amended failingEnv).2 "max_initial_count" "no such table: Inventory"
     (by decide) (by decide)⟩

/-- A processed submission with a non-empty input appends exactly its two
messages; folding over a list of such submissions appends the whole
transcript. -/
theorem foldl_submitStep :
    ∀ (subs : List (String × Except String String)) (history : List ChatMessage),
      (∀ s ∈ subs, s.1 ≠ "") →
      subs.foldl submitStep history = history ++ transcript subs
  | [], history, _ => by simp [transcript]
  | s :: t, history, h => by
    have hs : s.1 ≠ "" := h s (List.mem_cons_self s t)
    have ht : ∀ x ∈ t, x.1 ≠ "" := fun x hx => h x (List.mem_cons_of_mem _ hx)
    have step : submitStep history s = history ++ submissionMessages s := by
      simp [submitStep, process_user_message, hs, submissionMessages]
    have ih := foldl_submitStep t (submitStep history s) ht
    calc (s :: t).foldl submitStep history
        = t.foldl submitStep (submitStep history s) := rfl
      _ = (history ++ submissionMessages s) ++ transcript t := by rw [← step]; exact ih ▸ step ▸ rfl
      _ = history ++ transcript (s :: t) := by
          simp [transcript, List.append_assoc]

/-- The transcript of N submissions has exactly 2N messages. -/
theorem transcript_length (subs : List (String × Except String String)) :
    (transcript subs).length = 2 * subs.length := by
  induction subs with
  | nil => rfl
  | cons s t ih =>
    simp [transcript, submissionMessages] at *
    omega

/-- Claim C3: starting from any history, processing N submissions with
non-empty inputs (any mix of model successes and failures) yields exactly
the old history followed by one user message and one assistant message
per submission: the length grows by 2N and every pre-existing message
keeps its position. -/
theorem C3_history_append_only (history : List ChatMessage)
    (subs : List (String × Except String String))
    (h : ∀ s ∈ subs, s.1 ≠ "") :
    subs.foldl submitStep history = history ++ transcript subs ∧
    (subs.foldl submitStep history).length = history.length + 2 * subs.length ∧
    (∀ i, i < history.length →
      (subs.foldl submitStep history)[i]? = history[i]?) := by
  have heq := foldl_submitStep subs history h
  refine ⟨heq, ?_, ?_⟩
  · rw [heq]
    simp [transcript_length]
  · intro i hi
    rw [heq]
    exact List.getElem?_append_left hi

/-- Witness for C3 at the greeting history and two concrete submissions. -/
theorem C3_history_append_only_witness :
    exampleSubs.foldl submitStep [greetingMessage] =
      [greetingMessage] ++ transcript exampleSubs ∧
    (exampleSubs.foldl submitStep [greetingMessage]).length =
      [greetingMessage].length + 2 * exampleSubs.length ∧
    (exampleSubs.foldl submitStep [greetingMessage])[0]? = [greetingMessage][0]? :=
  ⟨(C3_history_append_only [greetingMessage] exampleSubs (by decide)).1,
   (C3_history_append_only [greetingMessage] exampleSubs (by decide)).2.1,
   (C3_history_append_only [greetingMessage] exampleSubs (by decide)).2.2 0 (by decide)⟩

/-- Filtering twice commutes: both orders keep exactly the rows passing
both predicates. -/
theorem filter_swap {α : Type} (p q : α → Bool) (l : List α) :
    (l.filter p).filter q = (l.filter q).filter p := by
  simp [List.filter_filter, Bool.and_comm]

/-- The product filter is the filter by its single boolean predicate. -/
theorem filterProducts_eq_filter (ps : List String) (l : List InventoryRow) :
    filterProducts ps l = l.filter (productPred ps) := by
  unfold filterProducts productPred
  rcases Bool.eq_false_or_eq_true ps.isEmpty with h | h
  · simp [h]
  · simp [h, List.filter_true]

/-- The year filter is the filter by its single boolean predicate. -/
theorem filterYear_eq_filter (y : YearFilter) (l : List InventoryRow) :
    filterYear y l = l.filter (yearPred y) := by
  cases y with
  | all =>
    unfold filterYear yearPred
    simp [List.filter_true]
  | year v => rfl

/-- The category filter is the filter by its single boolean predicate. -/
theorem filterCategory_eq_filter (c : CategoryFilter) (l : List InventoryRow) :
    filterCategory c l = l.filter (categoryPred c) := by
  cases c with
  | all =>
    unfold filterCategory categoryPred
    simp [List.filter_true]
  | cat v => rfl

/-- Claim C9: the three filter predicates commute - every one of the six
application orders yields the subset computed by `render_tab_content` -
and the `"all"`/empty sentinel of each predicate is the identity. -/
theorem C9_filter_commutative (rows : List InventoryRow) (sel : FilterSelection) :
    filterCategory sel.category (filterYear sel.year (filterProducts sel.products rows)) =
      applyFilters rows sel ∧
    filterYear sel.year (filterCategory sel.category (filterProducts sel.products rows)) =
      applyFilters rows sel ∧
    filterCategory sel.category (filterProducts sel.products (filterYear sel.year rows)) =
      applyFilters rows sel ∧
    filterProducts sel.products (filterCategory sel.category (filterYear sel.year rows)) =
      applyFilters rows sel ∧
    filterYear sel.year (filterProducts sel.products (filterCategory sel.category rows)) =
      applyFilters rows sel ∧
    filterProducts sel.products (filterYear sel.year (filterCategory sel.category rows)) =
      applyFilters rows sel ∧
    filterProducts [] rows = rows ∧
    filterYear YearFilter.all rows = rows ∧
    filterCategory CategoryFilter.all rows = rows := by
  refine ⟨rfl, ?_, ?_, ?_, ?_, ?_, ?_, rfl, rfl⟩
  · simp only [applyFilters, filterProducts_eq_filter, filterYear_eq_filter,
      filterCategory_eq_filter]
    simp [List.filter_filter, Bool.and_comm, Bool.and_left_comm, Bool.and_assoc]
  · simp only [applyFilters, filterProducts_eq_filter, filterYear_eq_filter,
      filterCategory_eq_filter]
    simp [List.filter_filter, Bool.and_comm, Bool.and_left_comm, Bool.and_assoc]
  · simp only [applyFilters, filterProducts_eq_filter, filterYear_eq_filter,
      filterCategory_eq_filter]
    simp [List.filter_filter, Bool.and_comm, Bool.and_left_comm, Bool.and_assoc]
  · simp only [applyFilters, filterProducts_eq_filter, filterYear_eq_filter,
      filterCategory_eq_filter]
    simp [List.filter_filter, Bool.and_comm, Bool.and_left_comm, Bool.and_assoc]
  · simp only [applyFilters, filterProducts_eq_filter, filterYear_eq_filter,
      filterCategory_eq_filter]
    simp [List.filter_filter, Bool.and_comm, Bool.and_left_comm, Bool.and_assoc]
  · simp [filterProducts]

/-- Claim C8 (counterexample): on a dataset with two `(date, product)`
groups of one transaction each - dates 3 and 5 - the summary returns the
tied groups in ascending date order (date 3 first): the group-by emits
the keys ascending and the double-reversed stable descending sort keeps
equal counts in that original order, so ties are not broken by
descending date. -/
theorem C8_tiebreak_counterexample :
    top_days busyTieRows =
      [BusyGroup.mk 3 "Lamp" 1, BusyGroup.mk 5 "Vase" 1] ∧
    (top_days busyTieRows).map (fun g => g.transaction_count) = [1, 1] ∧
    (top_days busyTieRows).map (fun g => g.date) = [3, 5] := by decide

/-- Claim C8 (amended): the busiest-day summary returns `min 10 N` rows
where `N` is the number of `(date, product)` groups - so at most 10, and
exactly `N` when fewer than 10 exist - every returned group counts at
least one transaction, and the rows are ordered by non-increasing
transaction count; the order among equal counts is whatever the
underlying argsort produces and in particular is not descending date. -/
theorem C8_busiest_days_amended (rows : List InventoryRow) :
    (top_days rows).length = min 10 (busy_days rows).length ∧
    (∀ g ∈ busy_days rows, 1 ≤ g.transaction_count) ∧
    (top_days rows).Pairwise (fun a b =>
      b.transaction_count ≤ a.transaction_count) := by
  refine ⟨?_, ?_, ?_⟩
  · simp [top_days, List.length_take, List.length_reverse, List.length_insertionSort]
  · intro g hg
    simp only [busy_days, List.mem_map] at hg
    obtain ⟨k, hk, rfl⟩ := hg
    rw [List.mem_insertionSort] at hk
    have hk3 : k ∈ rows.map (fun r => (r.date, r.product_name)) := List.mem_dedup.mp hk
    obtain ⟨r, hr, hre⟩ := List.mem_map.mp hk3
    exact List.countP_pos_iff.mpr ⟨r, hr, by simp [hre]⟩
  · have hcount : (((busy_days rows).reverse).insertionSort countLe).Pairwise countLe :=
      List.sorted_insertionSort countLe ((busy_days rows).reverse)
    have hrev : (((((busy_days rows).reverse).insertionSort countLe)).reverse).Pairwise
        (fun a b => b.transaction_count ≤ a.transaction_count) :=
      List.pairwise_reverse.mpr (hcount.imp (fun h => h))
    exact hrev.sublist (List.take_sublist 10 _)

/-- Witness for the amended C8 at a concrete dataset with two groups of
different counts. -/
theorem C8_busiest_days_amended_witness :
    (top_days busyExampleRows).length = min 10 (busy_days busyExampleRows).length ∧
    1 ≤ (BusyGroup.mk 5 "Vase" 2).transaction_count :=
  ⟨(C8_busiest_days_amended busyExampleRows).1,
   (C8_busiest_days_amended busyExampleRows).2.1 ⟨5, "Vase", 2⟩ (by decide)⟩
